import Mathlib

/-!
Verification of the influesafe credit-ledger and payment-reconciliation core.

The definitions below are a shallow embedding of the Python source:
  - `src/db/models.py`   (CRUD helpers over users / sessions / purchases)
  - `src/services/credits.py`   (`consume_credit`)
  - `src/app.py`   (`_has_any_credit`, `gate_login`, `_verify_pagbank_signature`,
    `_is_paid_status`, `webhook_pagbank`, `purchase`)
  - `src/payments/mock.py`   (`MockProvider.start_checkout`)

The database is modelled as an explicit state value; SQL rows become Lean
structures, integer columns become `Int` (so that nonnegativity is a real
question), and Python truthiness tests (`if user_id:`, `x or y`) are embedded
explicitly. The external HMAC-SHA256 primitive (`hashlib`/`hmac`) is passed in
as an opaque function argument, matching the spec's treatment of hashing as an
external collaborator.
-/

namespace Influesafe

/-- A row of the `sessions` table: `ip_hash`, `ua_hash`,
`credits_temp_remaining` (balance column as stored). -/
structure SessionRow where
  ip_hash : String
  ua_hash : String
  credits_temp_remaining : Int
deriving DecidableEq, Repr

/-- A row of the `purchases` table. -/
structure PurchaseRow where
  id : Nat
  user_id : Nat
  package : Int
  amount : Int
  status : String
  provider_ref : String
deriving DecidableEq, Repr

/-- The database state the claims are about: the `users` table keyed by id
(only the `credits_remaining` column is credit-relevant), the `sessions`
table keyed by `session_id`, and the `purchases` table as the list of its
rows in insertion order (`SELECT ... WHERE provider_ref = ?` + `fetchone`
returns the first match). -/
structure DBState where
  users : Nat → Option Int
  sessions : String → Option SessionRow
  purchases : List PurchaseRow

/-- Python truthiness of an `Optional[int]` (`if user_id:`): `None` and `0`
are falsy. -/
def truthyNat : Option Nat → Bool
  | none => false
  | some n => decide (n ≠ 0)

/-- Python truthiness of an `Optional[str]` (`if session_id:`): `None` and
the empty string are falsy. -/
def truthyStr : Option String → Bool
  | none => false
  | some s => decide (s ≠ "")

/-- Python `a or b` for an optional string: the default is used when `a` is
`None` or empty. -/
def orElseStr (a : Option String) (b : String) : String :=
  match a with
  | none => b
  | some s => if s = "" then b else s

/-- The external `str.upper()` primitive, character by character. -/
def pyUpper (s : String) : String := ⟨s.data.map Char.toUpper⟩

/-- The external `str.lower()` primitive, character by character. -/
def pyLower (s : String) : String := ⟨s.data.map Char.toLower⟩

/-- The external `str.strip()` primitive: whitespace removed from both
ends. -/
def pyStrip (s : String) : String :=
  ⟨((s.data.dropWhile Char.isWhitespace).reverse.dropWhile Char.isWhitespace).reverse⟩

/-- Embedding of `db.models.consume_user_credit_atomic`: read the user's
`credits_remaining`; if the row is missing or the balance is `<= 0`, return
`False` without touching anything; otherwise decrement by 1 and return
`True`. Returns the flag together with the post state. -/
def consume_user_credit_atomic (st : DBState) (user_id : Nat) : Bool × DBState :=
  match st.users user_id with
  | none => (false, st)
  | some c =>
      if c ≤ 0 then (false, st)
      else (true, { st with users := fun i => if i = user_id then some (c - 1) else st.users i })

/-- Embedding of `db.models.consume_session_credit_atomic`: same guarded decrement against
the session's `credits_temp_remaining`. -/
def consume_session_credit_atomic (st : DBState) (session_id : String) : Bool × DBState :=
  match st.sessions session_id with
  | none => (false, st)
  | some r =>
      if r.credits_temp_remaining ≤ 0 then (false, st)
      else (true, { st with
        sessions := fun s =>
          if s = session_id then some { r with credits_temp_remaining := r.credits_temp_remaining - 1 }
          else st.sessions s })

/-- Embedding of `db.models.increment_user_credits`: `UPDATE users SET credits_remaining =
credits_remaining + ? WHERE id = ?` — adds `amount` when the row exists, no-op
otherwise. -/
def increment_user_credits (st : DBState) (user_id : Nat) (amount : Int) : DBState :=
  { st with users := fun i => if i = user_id then (st.users i).map (· + amount) else st.users i }

/-- Embedding of `db.models.get_or_create_session`: if a row with this `session_id` exists,
return its current balance and change nothing; otherwise insert the row with
`free_credits` as its starting balance and return `free_credits`. -/
def get_or_create_session (st : DBState) (session_id ip_hash ua_hash : String)
    (free_credits : Int) : Int × DBState :=
  match st.sessions session_id with
  | some r => (r.credits_temp_remaining, st)
  | none =>
      (free_credits, { st with
        sessions := fun s =>
          if s = session_id then
            some { ip_hash := ip_hash, ua_hash := ua_hash, credits_temp_remaining := free_credits }
          else st.sessions s })

/-- Embedding of `services.credits.consume_credit`: try the authenticated user first
(only when `user_id` is truthy); on success stop with `True`; otherwise fall
back to the temporary session (only when `session_id` is truthy); `False`
when neither attempt succeeds. -/
def consume_credit (st : DBState) (user_id : Option Nat) (session_id : Option String) :
    Bool × DBState :=
  let step1 : Bool × DBState :=
    if truthyNat user_id then consume_user_credit_atomic st (user_id.getD 0)
    else (false, st)
  if step1.1 then (true, step1.2)
  else if truthyStr session_id then consume_session_credit_atomic step1.2 (session_id.getD "")
  else (false, step1.2)

/-- Embedding of `app._has_any_credit`: true when the (truthy) user has a strictly
positive `credits_remaining`, or else the (truthy) session has a strictly
positive `credits_temp_remaining`. -/
def has_any_credit (st : DBState) (user_id : Option Nat) (session_id : Option String) : Bool :=
  (truthyNat user_id &&
    match st.users (user_id.getD 0) with
    | some c => decide (0 < c)
    | none => false) ||
  (truthyStr session_id &&
    match st.sessions (session_id.getD "") with
    | some r => decide (0 < r.credits_temp_remaining)
    | none => false)

/-- The user-side disjunct of `app._has_any_credit`: the user identity is
truthy and its row holds a positive balance. Under the row discipline of the
store this is exactly "the user attempt of `consume_credit` succeeds". -/
def user_pos (st : DBState) (user_id : Option Nat) : Bool :=
  truthyNat user_id &&
    match st.users (user_id.getD 0) with
    | some c => decide (0 < c)
    | none => false

/-- The session-side disjunct of `app._has_any_credit`. -/
def session_pos (st : DBState) (session_id : Option String) : Bool :=
  truthyStr session_id &&
    match st.sessions (session_id.getD "") with
    | some r => decide (0 < r.credits_temp_remaining)
    | none => false

/-! ### Payment reconciliation: `src/app.py` webhook and `src/payments/mock.py` -/

/-- Outcome of one call to the webhook handler (the JSON body / HTTP status
pairs it can answer with). -/
inductive WebhookResult where
  /-- Answer `{"ok": False, "error": "signature_invalid"}` with HTTP 400. -/
  | sigInvalid : WebhookResult
  /-- Answer `{"ok": True, "skipped": True}`: no provider reference. -/
  | skipped : WebhookResult
  /-- Answer `{"ok": True, "unknown_purchase": True}`: no matching purchase. -/
  | unknownPurchase : WebhookResult
  /-- Answer `{"ok": True, "idempotent": True}`: already `paid`. -/
  | idempotent : WebhookResult
  /-- Answer `{"ok": True, "credited": n}`. -/
  | credited : Int → WebhookResult
  /-- Answer `{"ok": False, "error": "credit_failed"}` with HTTP 500. -/
  | creditFailed : WebhookResult
  /-- Answer `{"ok": True, "status": s}`: non-paid status recorded. -/
  | statusUpdated : String → WebhookResult
deriving DecidableEq, Repr

/-- The JSON fields of the webhook payload that `webhook_pagbank` reads
(`None` when the key is absent). -/
structure WebhookPayload where
  reference_id : Option String := none
  referenceId : Option String := none
  order_id : Option String := none
  idField : Option String := none
  status : Option String := none
deriving DecidableEq, Repr

/-- The `provider_ref` extraction of `webhook_pagbank`: the Python `or` chain
`reference_id or referenceId or order_id or id or ""`. -/
def extract_provider_ref (p : WebhookPayload) : String :=
  orElseStr p.reference_id (orElseStr p.referenceId (orElseStr p.order_id (orElseStr p.idField "")))

/-- The status extraction of `webhook_pagbank`: `(payload.get("status") or
"").upper()`. -/
def extract_status (p : WebhookPayload) : String :=
  pyUpper (orElseStr p.status "")

/-- Embedding of `app._is_paid_status`: empty is not paid; otherwise the upper-cased
string must be one of the accepted provider spellings. -/
def is_paid_status (s : String) : Bool :=
  if s = "" then false
  else
    let u := pyUpper s
    u = "PAID" || u = "APPROVED" || u = "AUTHORIZED" || u = "CAPTURED" || u = "SUCCEEDED"

/-- Embedding of `app._hmac_safe_compare`: length check, then `hmac.compare_digest`
(equality for equal-length inputs). -/
def hmac_safe_compare (a b : String) : Bool :=
  if a.length ≠ b.length then false else a = b

/-- Embedding of `app._verify_pagbank_signature`. Here `hmacHex` stands for the external
`hmac.new(secret, raw, sha256).hexdigest()` primitive; `secret` is the
configured `PAGBANK_WEBHOOK_SECRET` bytes; `header_sig` is the signature
header (`""` when absent, as `_read_header_any` returns). An unconfigured
(empty) secret accepts unconditionally. -/
def verify_pagbank_signature (hmacHex : List Nat → List Nat → String)
    (secret : List Nat) (header_sig : String) (raw : List Nat) : Bool :=
  if secret = [] then true
  else if header_sig = "" then false
  else hmac_safe_compare (hmacHex secret raw) (pyStrip header_sig)

/-- Embedding of `SELECT id, user_id, package, status FROM purchases WHERE provider_ref = ?`
with `fetchone`: the first row whose `provider_ref` matches. -/
def find_purchase (st : DBState) (ref : String) : Option PurchaseRow :=
  st.purchases.find? (fun p => p.provider_ref = ref)

/-- Embedding of `UPDATE purchases SET status = ? WHERE id = ?`. -/
def set_purchase_status (st : DBState) (pid : Nat) (s : String) : DBState :=
  { st with purchases := st.purchases.map (fun p => if p.id = pid then { p with status := s } else p) }

/-- Modelled from the spec: `add_credits_to_user` is imported by `app.py`
from `db.models` but is not defined anywhere under `src/`; the spec's Ledger
operation `grant(user_id, amount)` "unconditionally adds `amount` ... to the
user's balance" (an `UPDATE`, hence a no-op when the user row is absent,
like `increment_user_credits`). -/
def add_credits_to_user (st : DBState) (user_id : Nat) (amount : Int) : DBState :=
  { st with users := fun i => if i = user_id then (st.users i).map (· + amount) else st.users i }

/-- Embedding of `app.webhook_pagbank`, after HTTP plumbing: `hmacHex`/`secret`/
`header_sig`/`raw` feed the signature check; `payload` is the parsed JSON;
`grant_ok` is whether the `add_credits_to_user` call succeeds (`False` models
the exception caught by the `try`/`except` around it). -/
def webhook_pagbank (hmacHex : List Nat → List Nat → String) (secret : List Nat)
    (header_sig : String) (raw : List Nat) (payload : WebhookPayload)
    (grant_ok : Bool) (st : DBState) : WebhookResult × DBState :=
  if ¬ verify_pagbank_signature hmacHex secret header_sig raw then (.sigInvalid, st)
  else
    let provider_ref := extract_provider_ref payload
    let status := extract_status payload
    if provider_ref = "" then (.skipped, st)
    else
      match find_purchase st provider_ref with
      | none => (.unknownPurchase, st)
      | some row =>
          let package : Int := if row.package = 0 then 10 else row.package
          let current_status := pyLower row.status
          if is_paid_status status then
            if current_status = "paid" then (.idempotent, st)
            else
              let st1 := set_purchase_status st row.id "paid"
              if grant_ok then (.credited package, add_credits_to_user st1 row.user_id package)
              else (.creditFailed, set_purchase_status st1 row.id "pending")
          else
            let new_status := if pyLower status = "" then "pending" else pyLower status
            if new_status ≠ current_status then
              (.statusUpdated new_status, set_purchase_status st row.id new_status)
            else (.statusUpdated new_status, st)

/-- Embedding of `db.models.create_purchase`: insert a row (fresh autoincrement id) and
return its id. -/
def create_purchase (st : DBState) (user_id : Nat) (package amount : Int)
    (status provider_ref : String) : Nat × DBState :=
  let pid := (st.purchases.map (fun p => p.id)).foldr max 0 + 1
  (pid, { st with
    purchases := st.purchases ++
      [{ id := pid, user_id := user_id, package := package, amount := amount,
         status := status, provider_ref := provider_ref }] })

/-- What `MockProvider.start_checkout` answers. -/
structure CheckoutResult where
  ok : Bool
  purchase_id : Nat
  statusField : String
deriving DecidableEq, Repr

/-- Embedding of `payments.mock.MockProvider.start_checkout`: price looked up in the
table `{10: 2990, 20: 5490, 50: 11990}` with `.get(package, 2990)` — the
default applies to any unlisted package; a `paid` purchase is created and
the user is credited `package` immediately. -/
def mock_start_checkout (st : DBState) (user_id : Nat) (package : Int) :
    CheckoutResult × DBState :=
  let amount : Int :=
    if package = 10 then 2990 else if package = 20 then 5490
    else if package = 50 then 11990 else 2990
  let (pid, st1) := create_purchase st user_id package amount "paid" "MOCK-OK"
  let st2 := increment_user_credits st1 user_id package
  ({ ok := true, purchase_id := pid, statusField := "paid" }, st2)

/-! ### Gate endpoint: `src/app.py` `gate_login` -/

/-- The credit-relevant fields of the `gate_login` JSON response. -/
structure GateResult where
  require_login : Bool
  logged_in : Bool
  need_purchase : Bool
deriving DecidableEq, Repr

/-- Embedding of `app._ensure_session_created`: reuse the cookie session id when truthy,
otherwise mint `fresh` (a new uuid4) and insert it with `FREE_CREDITS`.
Returns the resolved id, whether it was created now, and the post state. -/
def ensure_session_created (st : DBState) (cookie : Option String)
    (fresh ip_hash ua_hash : String) (free_credits : Int) : String × Bool × DBState :=
  if truthyStr cookie then (cookie.getD "", false, st)
  else
    let r := get_or_create_session st fresh ip_hash ua_hash free_credits
    (fresh, true, r.2)

/-- Embedding of `app._ensure_session_persisted`: insert the row with `FREE_CREDITS` if it
is absent, leave it alone otherwise. -/
def ensure_session_persisted (st : DBState) (sid ip_hash ua_hash : String)
    (free_credits : Int) : DBState :=
  match st.sessions sid with
  | some _ => st
  | none =>
      { st with
        sessions := fun s =>
          if s = sid then
            some { ip_hash := ip_hash, ua_hash := ua_hash, credits_temp_remaining := free_credits }
          else st.sessions s }

/-- The session id `gate_login` resolves: the truthy cookie, else the fresh
uuid. -/
def resolved_sid (cookie : Option String) (fresh : String) : String :=
  if truthyStr cookie then cookie.getD "" else fresh

/-- Embedding of `app.gate_login`: ensure a session exists, then:
`require_login := False` when some identity has credit; else
`require_login := False, need_purchase := True` when logged in; else
`require_login := True`. -/
def gate_login (st : DBState) (user_id : Option Nat) (cookie : Option String)
    (fresh ip_hash ua_hash : String) (free_credits : Int) : GateResult × DBState :=
  let r := ensure_session_created st cookie fresh ip_hash ua_hash free_credits
  let sid := r.1
  let st2 := ensure_session_persisted r.2.2 sid ip_hash ua_hash free_credits
  if has_any_credit st2 user_id (some sid) then
    ({ require_login := false, logged_in := truthyNat user_id, need_purchase := false }, st2)
  else if truthyNat user_id then
    ({ require_login := false, logged_in := true, need_purchase := true }, st2)
  else
    ({ require_login := true, logged_in := false, need_purchase := false }, st2)

/-! ### Shared observation helpers and lemmas -/

/-- Status of the first purchase row carrying a given `id` (`purchases.id`
is the primary key, so this is the row the `UPDATE ... WHERE id = ?`
statements target). -/
def purchase_status_by_id (st : DBState) (pid : Nat) : Option String :=
  (st.purchases.find? (fun q => q.id = pid)).map (fun q => q.status)

/-- A failed user-side consume leaves the state untouched. -/
theorem consume_user_fail_state (st : DBState) (u : Nat)
    (h : (consume_user_credit_atomic st u).1 = false) :
    (consume_user_credit_atomic st u).2 = st := by
  unfold consume_user_credit_atomic at *
  cases hu : st.users u with
  | none => simp
  | some c => simp only [hu] at h ⊢; split <;> simp_all

/-- The user-side consume succeeds exactly when the user identity would pass
the user-side credit check. -/
theorem consume_user_fst (st : DBState) (u : Nat) (h0 : st.users 0 = none) :
    (consume_user_credit_atomic st u).1 = user_pos st (some u) := by
  unfold consume_user_credit_atomic user_pos truthyNat
  rcases Nat.eq_zero_or_pos u with rfl | hu
  · simp [h0]
  · cases hc : st.users u with
    | none => simp [hc, Option.getD]
    | some c =>
        simp only [hc, Option.getD]
        split <;> simp <;> omega

/-- The session-side consume succeeds exactly when the session identity
would pass the session-side credit check (given that the empty session id —
falsy in Python — has no row). -/
theorem consume_session_fst (st : DBState) (s : String) (he : st.sessions "" = none) :
    (consume_session_credit_atomic st s).1 = session_pos st (some s) := by
  unfold consume_session_credit_atomic session_pos truthyStr
  by_cases hs : s = ""
  · subst hs; simp [he]
  · cases hc : st.sessions s with
    | none => simp [hc, Option.getD, hs]
    | some r =>
        simp only [hc, Option.getD, hs]
        split <;> simp [hs] <;> omega

/-- A failed session-side consume leaves the state untouched. -/
theorem consume_session_fail_state (st : DBState) (s : String)
    (h : (consume_session_credit_atomic st s).1 = false) :
    (consume_session_credit_atomic st s).2 = st := by
  unfold consume_session_credit_atomic at *
  cases hc : st.sessions s with
  | none => simp
  | some r => simp only [hc] at h ⊢; split <;> simp_all

/-- When the user attempt cannot succeed, the first stage of
`consume_credit` is a no-op. -/
theorem consume_step1_of_not_user_pos (st : DBState) (uid : Option Nat)
    (h0 : st.users 0 = none) (h : user_pos st uid = false) :
    (if truthyNat uid then consume_user_credit_atomic st (uid.getD 0) else (false, st))
      = (false, st) := by
  cases uid with
  | none => simp [truthyNat]
  | some u =>
      by_cases hu : truthyNat (some u) = true
      · have h1 := consume_user_fst st u h0
        have h2 : (consume_user_credit_atomic st u).1 = false := by
          rw [h1]
          simpa [Option.getD] using h
        have h3 := consume_user_fail_state st u h2
        simp only [hu, if_true]
        exact Prod.ext (by simpa [Option.getD] using h2) (by simpa [Option.getD] using h3)
      · simp only [Bool.not_eq_true] at hu
        simp [hu]

/-- Unpacking of a successful user-side credit check. -/
theorem user_pos_elim {st : DBState} {uid : Option Nat} (h : user_pos st uid = true) :
    ∃ u c, uid = some u ∧ u ≠ 0 ∧ st.users u = some c ∧ 0 < c := by
  cases uid with
  | none => simp [user_pos, truthyNat] at h
  | some u =>
      unfold user_pos truthyNat at h
      rw [Bool.and_eq_true] at h
      obtain ⟨h1, h2⟩ := h
      refine ⟨u, ?_⟩
      cases hc : st.users ((some u).getD 0) with
      | none => rw [hc] at h2; cases h2
      | some c =>
          rw [hc] at h2
          exact ⟨c, rfl, of_decide_eq_true h1, by simpa [Option.getD] using hc,
            of_decide_eq_true h2⟩

/-- A user-side consume against a positive balance decrements it. -/
theorem consume_user_pos_eq {st : DBState} {u : Nat} {c : Int}
    (hc : st.users u = some c) (hpos : 0 < c) :
    consume_user_credit_atomic st u =
      (true, { st with users := fun i => if i = u then some (c - 1) else st.users i }) := by
  unfold consume_user_credit_atomic
  simp only [hc]
  rw [if_neg (by omega : ¬ c ≤ 0)]

/-- The empty database (no users, no sessions, no purchases). -/
def emptySt : DBState :=
  { users := fun _ => none, sessions := fun _ => none, purchases := [] }

/-- A store with one user (id 1, balance 1) and one session (`"s"`,
balance 5): the precedence example of the spec. -/
def oneFiveSt : DBState :=
  { users := fun i => if i = 1 then some 1 else none,
    sessions := fun s =>
      if s = "s" then some { ip_hash := "i", ua_hash := "u", credits_temp_remaining := 5 }
      else none,
    purchases := [] }

/-! ### Claim theorems -/

/-- C10: consuming a credit for an identity whose row does not exist is a
clean failure: both atomic consume helpers answer `False` and leave the
store exactly as it was — the same observable outcome as a zero balance. -/
theorem consume_atomic_missing_row (st : DBState) (uid : Nat) (sid : String)
    (hu : st.users uid = none) (hs : st.sessions sid = none) :
    consume_user_credit_atomic st uid = (false, st) ∧
    consume_session_credit_atomic st sid = (false, st) := by
  constructor
  · unfold consume_user_credit_atomic; rw [hu]
  · unfold consume_session_credit_atomic; rw [hs]

/-- Witness for C10 at the empty store. -/
theorem consume_atomic_missing_row_witness :
    consume_user_credit_atomic emptySt 5 = (false, emptySt) ∧
    consume_session_credit_atomic emptySt "s" = (false, emptySt) :=
  consume_atomic_missing_row emptySt 5 "s" rfl rfl

/-- C6: `get_or_create_session` is an idempotent get-or-create: an existing
row is returned unchanged (the whole store is untouched), an absent row is
created with exactly `free_credits`, and running it twice ends in the same
state as running it once. -/
theorem get_or_create_session_spec (st : DBState) (sid iph uah : String) (free : Int) :
    (∀ r, st.sessions sid = some r →
        get_or_create_session st sid iph uah free = (r.credits_temp_remaining, st)) ∧
    (st.sessions sid = none →
        (get_or_create_session st sid iph uah free).1 = free ∧
        (get_or_create_session st sid iph uah free).2.sessions sid =
          some { ip_hash := iph, ua_hash := uah, credits_temp_remaining := free } ∧
        ∀ s, s ≠ sid → (get_or_create_session st sid iph uah free).2.sessions s = st.sessions s) ∧
    (get_or_create_session (get_or_create_session st sid iph uah free).2 sid iph uah free).2 =
      (get_or_create_session st sid iph uah free).2 := by
  refine ⟨?_, ?_, ?_⟩
  · intro r hr
    unfold get_or_create_session
    rw [hr]
  · intro hn
    unfold get_or_create_session
    rw [hn]
    refine ⟨rfl, by simp, ?_⟩
    intro s hssid
    simp [hssid]
  · have key : ∀ (stx : DBState) (r : SessionRow), stx.sessions sid = some r →
        (get_or_create_session stx sid iph uah free).2 = stx := by
      intro stx r hrx
      unfold get_or_create_session
      rw [hrx]
    rcases hr : st.sessions sid with _ | r
    · apply key _ { ip_hash := iph, ua_hash := uah, credits_temp_remaining := free }
      unfold get_or_create_session
      rw [hr]
      simp
    · have h1 : (get_or_create_session st sid iph uah free).2 = st := key st r hr
      rw [h1]
      exact h1

/-- Witness for C6: creating a fresh session yields the free-credit balance
and a second call does not change the store. -/
theorem get_or_create_session_spec_witness :
    (get_or_create_session emptySt "s" "i" "u" 3).1 = 3 ∧
    (get_or_create_session (get_or_create_session emptySt "s" "i" "u" 3).2 "s" "i" "u" 3).2 =
      (get_or_create_session emptySt "s" "i" "u" 3).2 :=
  ⟨((get_or_create_session_spec emptySt "s" "i" "u" 3).2.1 rfl).1,
    (get_or_create_session_spec emptySt "s" "i" "u" 3).2.2⟩

/-- C1: `consume_credit` prefers the authenticated user: a present user with
positive balance is decremented (session untouched) and the call answers
`True`; when the user attempt cannot succeed the same guarded decrement runs
against the session; the answer is `True` exactly when some decrement
happened, and when neither identity has a positive balance the call answers
`False` with the store unchanged (including when both identities are
absent). The two side conditions say ids are well formed: the autoincrement
user id `0` and the empty session id (both falsy in Python) have no row. -/
theorem consume_credit_spec (st : DBState) (uid : Option Nat) (sid : Option String)
    (h0 : st.users 0 = none) (he : st.sessions "" = none) :
    (user_pos st uid = true →
      (consume_credit st uid sid).1 = true ∧
      (consume_credit st uid sid).2.users (uid.getD 0) = (st.users (uid.getD 0)).map (· - 1) ∧
      ∀ s, (consume_credit st uid sid).2.sessions s = st.sessions s) ∧
    (user_pos st uid = false → ∀ s, sid = some s →
      consume_credit st uid sid = consume_session_credit_atomic st s) ∧
    (user_pos st uid = false → session_pos st sid = false →
      consume_credit st uid sid = (false, st)) ∧
    (consume_credit st uid sid).1 = (user_pos st uid || session_pos st sid) := by
  have main1 : user_pos st uid = true →
      (consume_credit st uid sid).1 = true ∧
      (consume_credit st uid sid).2.users (uid.getD 0) = (st.users (uid.getD 0)).map (· - 1) ∧
      ∀ s, (consume_credit st uid sid).2.sessions s = st.sessions s := by
    intro hpos
    obtain ⟨u, c, rfl, hu, hc, hcpos⟩ := user_pos_elim hpos
    have ht : truthyNat (some u) = true := by simp [truthyNat, hu]
    have hcons := consume_user_pos_eq hc hcpos
    unfold consume_credit
    simp only [ht, if_true, Option.getD_some, hcons]
    refine ⟨by simp, by simp [hc], fun s => by simp⟩
  have main2 : user_pos st uid = false → ∀ s, sid = some s →
      consume_credit st uid sid = consume_session_credit_atomic st s := by
    intro hneg s hsid
    subst hsid
    have hstep := consume_step1_of_not_user_pos st uid h0 hneg
    unfold consume_credit
    rw [hstep]
    by_cases hs : s = ""
    · subst hs
      have : consume_session_credit_atomic st "" = (false, st) := by
        unfold consume_session_credit_atomic
        rw [he]
      simp [truthyStr, this]
    · simp [truthyStr, hs]
  have main4 : (consume_credit st uid sid).1 = (user_pos st uid || session_pos st sid) := by
    by_cases hup : user_pos st uid = true
    · rw [hup, (main1 hup).1, Bool.true_or]
    · rw [Bool.not_eq_true] at hup
      cases sid with
      | none =>
          have hstep := consume_step1_of_not_user_pos st uid h0 hup
          unfold consume_credit
          rw [hstep]
          simp [truthyStr, hup, session_pos]
      | some s =>
          rw [main2 hup s rfl, consume_session_fst st s he, hup, Bool.false_or]
  have main3 : user_pos st uid = false → session_pos st sid = false →
      consume_credit st uid sid = (false, st) := by
    intro hup hsp
    cases sid with
    | none =>
        have hstep := consume_step1_of_not_user_pos st uid h0 hup
        unfold consume_credit
        rw [hstep]
        simp [truthyStr]
    | some s =>
        rw [main2 hup s rfl]
        have hf : (consume_session_credit_atomic st s).1 = false := by
          rw [consume_session_fst st s he]
          exact hsp
        exact Prod.ext hf (consume_session_fail_state st s hf)
  exact ⟨main1, main2, main3, main4⟩

/-- Witness for C1: a user with balance 1 and a session with balance 5 — one
call consumes from the user, answers `True`, and the session keeps its 5. -/
theorem consume_credit_spec_witness :
    user_pos oneFiveSt (some 1) = true ∧
    (consume_credit oneFiveSt (some 1) (some "s")).1 = true ∧
    (consume_credit oneFiveSt (some 1) (some "s")).2.sessions "s" = oneFiveSt.sessions "s" :=
  have h := consume_credit_spec oneFiveSt (some 1) (some "s") (by decide) (by decide)
  ⟨by decide, (h.1 (by decide)).1, (h.1 (by decide)).2.2 "s"⟩

/-! ### Webhook lemmas -/

/-- A stand-in for the external HMAC hexdigest primitive, usable at concrete
inputs. -/
def dummyHmac : List Nat → List Nat → String := fun _ _ => "aa"

/-- Reduction of the webhook handler once the signature is accepted, a
provider reference is present, and a purchase row is found. -/
theorem webhook_found_eq (hmacHex : List Nat → List Nat → String)
    (secret : List Nat) (header_sig : String) (raw : List Nat)
    (payload : WebhookPayload) (grant_ok : Bool) (st : DBState) (p : PurchaseRow)
    (hver : verify_pagbank_signature hmacHex secret header_sig raw = true)
    (href : extract_provider_ref payload ≠ "")
    (hfound : find_purchase st (extract_provider_ref payload) = some p) :
    webhook_pagbank hmacHex secret header_sig raw payload grant_ok st =
      (if is_paid_status (extract_status payload) then
        if pyLower p.status = "paid" then (.idempotent, st)
        else
          if grant_ok then
            (.credited (if p.package = 0 then 10 else p.package),
              add_credits_to_user (set_purchase_status st p.id "paid") p.user_id
                (if p.package = 0 then 10 else p.package))
          else (.creditFailed, set_purchase_status (set_purchase_status st p.id "paid") p.id "pending")
      else
        if (if pyLower (extract_status payload) = "" then "pending"
            else pyLower (extract_status payload)) ≠ pyLower p.status then
          (.statusUpdated (if pyLower (extract_status payload) = "" then "pending"
            else pyLower (extract_status payload)),
            set_purchase_status st p.id
              (if pyLower (extract_status payload) = "" then "pending"
               else pyLower (extract_status payload)))
        else
          (.statusUpdated (if pyLower (extract_status payload) = "" then "pending"
            else pyLower (extract_status payload)), st)) := by
  unfold webhook_pagbank
  rw [if_neg (by simp [hver]), if_neg href, hfound]

/-- Updating one purchase row's status leaves every row's identity fields in
place; in particular a lookup by `provider_ref` finds the updated image of
the row it found before. -/
theorem find_ref_after_set (l : List PurchaseRow) (ref : String) (p : PurchaseRow)
    (pid : Nat) (s : String)
    (h : l.find? (fun q => q.provider_ref = ref) = some p) :
    (l.map (fun q => if q.id = pid then { q with status := s } else q)).find?
        (fun q => q.provider_ref = ref)
      = some (if p.id = pid then { p with status := s } else p) := by
  induction l with
  | nil => cases h
  | cons a t ih =>
      have hmref : (if a.id = pid then { a with status := s } else a).provider_ref
          = a.provider_ref := by
        by_cases ha : a.id = pid <;> simp [ha]
      by_cases hra : a.provider_ref = ref
      · rw [List.find?_cons_of_pos _ (by simpa using hra)] at h
        obtain rfl : a = p := by injection h
        rw [List.map_cons, List.find?_cons_of_pos _ (by simpa [hmref] using hra)]
      · rw [List.find?_cons_of_neg _ (by simpa using hra)] at h
        rw [List.map_cons, List.find?_cons_of_neg _ (by simpa [hmref] using hra)]
        exact ih h

/-- After `UPDATE purchases SET status = s WHERE id = pid`, looking the row up
by its id reads back `s` (provided some row carries that id). -/
theorem status_by_id_after_set_list (l : List PurchaseRow) (pid : Nat) (s : String)
    (h : ∃ q ∈ l, q.id = pid) :
    ((l.map (fun q => if q.id = pid then { q with status := s } else q)).find?
        (fun q => q.id = pid)).map (fun q => q.status) = some s := by
  induction l with
  | nil => simp at h
  | cons a t ih =>
      by_cases ha : a.id = pid
      · rw [List.map_cons, List.find?_cons_of_pos _ (by simp [ha])]
        simp [ha]
      · obtain ⟨q, hq, hqid⟩ := h
        rcases List.mem_cons.mp hq with rfl | hqt
        · exact absurd hqid ha
        · rw [List.map_cons, List.find?_cons_of_neg _ (by simp [ha])]
          exact ih ⟨q, hqt, hqid⟩

/-- Restatement of `status_by_id_after_set_list` at the state level. -/
theorem status_by_id_after_set (st : DBState) (pid : Nat) (s : String)
    (h : ∃ q ∈ st.purchases, q.id = pid) :
    purchase_status_by_id (set_purchase_status st pid s) pid = some s :=
  status_by_id_after_set_list st.purchases pid s h

/-- A successful lookup result is unchanged by an id-keyed status update when
no update happens — helper equality: purchases are untouched by
`add_credits_to_user`. -/
theorem add_credits_purchases (st : DBState) (uid : Nat) (amount : Int) :
    (add_credits_to_user st uid amount).purchases = st.purchases := rfl

/-! ### Claim theorems for the webhook -/

/-- C5: with a configured (non-empty) secret, a webhook whose signature
header is absent or whose stripped value differs from the HMAC hexdigest of
the raw body is answered with the 400 signature failure and the store —
every purchase row and every balance — is untouched; with an unconfigured
secret the signature check accepts unconditionally and the handler never
answers the signature failure. -/
theorem webhook_signature_auth (hmacHex : List Nat → List Nat → String)
    (secret : List Nat) (header_sig : String) (raw : List Nat)
    (payload : WebhookPayload) (grant_ok : Bool) (st : DBState) :
    (secret ≠ [] → (header_sig = "" ∨ pyStrip header_sig ≠ hmacHex secret raw) →
      webhook_pagbank hmacHex secret header_sig raw payload grant_ok st = (.sigInvalid, st)) ∧
    (secret = [] →
      verify_pagbank_signature hmacHex secret header_sig raw = true ∧
      (webhook_pagbank hmacHex secret header_sig raw payload grant_ok st).1 ≠ .sigInvalid) := by
  constructor
  · intro hsec hbad
    have hv : verify_pagbank_signature hmacHex secret header_sig raw = false := by
      unfold verify_pagbank_signature
      rw [if_neg hsec]
      by_cases hh : header_sig = ""
      · rw [if_pos hh]
      · rw [if_neg hh]
        rcases hbad with h | h
        · exact absurd h hh
        · unfold hmac_safe_compare
          split
          · rfl
          · exact decide_eq_false fun hEq => h hEq.symm
    unfold webhook_pagbank
    rw [if_pos (by simp [hv])]
  · intro hsec
    have hv : verify_pagbank_signature hmacHex secret header_sig raw = true := by
      unfold verify_pagbank_signature
      rw [if_pos hsec]
    refine ⟨hv, ?_⟩
    unfold webhook_pagbank
    rw [if_neg (by simp [hv])]
    dsimp only
    repeat' split
    all_goals simp

/-- Witness for C5: a mismatched signature under a configured secret is
rejected with no state change. -/
theorem webhook_signature_auth_witness :
    webhook_pagbank dummyHmac [1] "bb" [] {} true emptySt = (.sigInvalid, emptySt) :=
  (webhook_signature_auth dummyHmac [1] "bb" [] {} true emptySt).1
    (by decide) (Or.inr (by decide))

/-- A store with one user (id 1, balance 10) and one already-`paid` purchase
referenced by `"R1"`. -/
def paidSt : DBState :=
  { users := fun i => if i = 1 then some 10 else none,
    sessions := fun _ => none,
    purchases := [{ id := 1, user_id := 1, package := 10, amount := 2990,
                    status := "paid", provider_ref := "R1" }] }

/-- C7 counterexample: a delivery carrying status `"CANCELED"` (not the
credit-failure revert path — the result is not `creditFailed`) moves a
`paid` Purchase to `"canceled"`, a non-paid state. -/
theorem webhook_paid_overwritten_counterexample :
    (find_purchase paidSt "R1").map (fun p => p.status) = some "paid" ∧
    (webhook_pagbank dummyHmac [] "" []
        { reference_id := some "R1", status := some "CANCELED" } true paidSt).1
      ≠ .creditFailed ∧
    purchase_status_by_id
        (webhook_pagbank dummyHmac [] "" []
          { reference_id := some "R1", status := some "CANCELED" } true paidSt).2 1
      = some "canceled" := by
  refine ⟨by decide, by decide, by decide⟩

/-- C7 amended: a `paid` Purchase is never moved away by a delivery whose
status maps to a paid outcome (duplicates are idempotent no-ops), and the
compensating revert can set `pending`; but a delivery whose status does not
map to paid unconditionally records that lower-cased status (`"pending"`
when empty) — so `paid` can also transition to e.g. `"canceled"` this way. -/
theorem webhook_paid_purchase_transitions (hmacHex : List Nat → List Nat → String)
    (secret : List Nat) (header_sig : String) (raw : List Nat)
    (payload : WebhookPayload) (grant_ok : Bool) (st : DBState) (p : PurchaseRow)
    (hver : verify_pagbank_signature hmacHex secret header_sig raw = true)
    (href : extract_provider_ref payload ≠ "")
    (hfound : find_purchase st (extract_provider_ref payload) = some p)
    (hpaid : pyLower p.status = "paid") :
    (is_paid_status (extract_status payload) = true →
      webhook_pagbank hmacHex secret header_sig raw payload grant_ok st = (.idempotent, st)) ∧
    (is_paid_status (extract_status payload) = false →
      ∀ ns, ns = (if pyLower (extract_status payload) = "" then "pending"
          else pyLower (extract_status payload)) →
        webhook_pagbank hmacHex secret header_sig raw payload grant_ok st =
          (.statusUpdated ns, if ns = "paid" then st else set_purchase_status st p.id ns)) := by
  have hkey := webhook_found_eq hmacHex secret header_sig raw payload grant_ok st p
    hver href hfound
  constructor
  · intro hps
    rw [hkey, if_pos hps, if_pos hpaid]
  · intro hps ns hns
    rw [hkey, if_neg (by simp [hps]), hpaid, ← hns]
    by_cases hne : ns = "paid"
    · rw [if_neg (by simp [hne]), if_pos hne]
    · rw [if_pos (by simp [hne]), if_neg hne]

/-- Witness for C7 (amended): a duplicate paid confirmation against the
already-`paid` purchase is a pure idempotent no-op. -/
theorem webhook_paid_purchase_transitions_witness :
    webhook_pagbank dummyHmac [] "" []
        { reference_id := some "R1", status := some "PAID" } true paidSt
      = (.idempotent, paidSt) :=
  (webhook_paid_purchase_transitions dummyHmac [] "" []
      { reference_id := some "R1", status := some "PAID" } true paidSt
      { id := 1, user_id := 1, package := 10, amount := 2990,
        status := "paid", provider_ref := "R1" }
      (by decide) (by decide) (by decide) (by decide)).1 (by decide)

/-- A store with one user (id 1, balance 0) and no purchases, for exercising
the mock checkout. -/
def mockSt : DBState :=
  { users := fun i => if i = 1 then some 0 else none,
    sessions := fun _ => none, purchases := [] }

/-- C8 counterexample: package `7` is outside the `{10, 20, 50}` price list,
yet `MockProvider.start_checkout` creates a Purchase (with the default 2990
amount, already `paid`) and credits the user 7 credits. -/
theorem mock_checkout_no_validation_counterexample :
    (¬ ((7 : Int) = 10 ∨ (7 : Int) = 20 ∨ (7 : Int) = 50)) ∧
    (mock_start_checkout mockSt 1 7).2.purchases ≠ [] ∧
    (mock_start_checkout mockSt 1 7).2.users 1 = some 7 := by
  refine ⟨by decide, by decide, by decide⟩

/-- C8 amended: `MockProvider.start_checkout` performs no validation of the
package: for every package value it reports success, appends a Purchase
carrying that package as given — priced from the table for 10/20/50 and
falling back to 2990 otherwise — already in status `paid`, and immediately
adds `package` to the user's balance. -/
theorem mock_start_checkout_spec (st : DBState) (uid : Nat) (package : Int) :
    (mock_start_checkout st uid package).1.ok = true ∧
    (∃ pid, (mock_start_checkout st uid package).2.purchases =
      st.purchases ++
        [{ id := pid, user_id := uid, package := package,
           amount := if package = 10 then 2990 else if package = 20 then 5490
             else if package = 50 then 11990 else 2990,
           status := "paid", provider_ref := "MOCK-OK" }]) ∧
    (mock_start_checkout st uid package).2.users uid = (st.users uid).map (· + package) := by
  refine ⟨rfl, ⟨(st.purchases.map (fun p => p.id)).foldr max 0 + 1, rfl⟩, ?_⟩
  simp [mock_start_checkout, create_purchase, increment_user_credits]

/-- A store for the gate endpoint: user 1 and session `"sess"` both exist
with zero balance. -/
def gateZeroSt : DBState :=
  { users := fun i => if i = 1 then some 0 else none,
    sessions := fun s =>
      if s = "sess" then some { ip_hash := "i", ua_hash := "u", credits_temp_remaining := 0 }
      else none,
    purchases := [] }

/-- C9 counterexample: a logged-in caller (user 1, balance 0) with a
creditless session gets `require_login = False` although neither identity
has a positive balance — the claimed "iff" fails for authenticated
callers. -/
theorem gate_login_counterexample :
    has_any_credit gateZeroSt (some 1) (some "sess") = false ∧
    has_any_credit (gate_login gateZeroSt (some 1) (some "sess") "fresh" "i" "u" 0).2
      (some 1) (some "sess") = false ∧
    (gate_login gateZeroSt (some 1) (some "sess") "fresh" "i" "u" 0).1.require_login = false := by
  refine ⟨by decide, by decide, by decide⟩

/-- C9 amended: `gate_login` reports `require_login = True` iff the caller
is unauthenticated (no truthy user id) AND neither the user identity nor the
resolved session has a positive balance; an authenticated caller without
credit instead gets `require_login = False` with `need_purchase = True`. -/
theorem gate_login_require_login_iff (st : DBState) (uid : Option Nat)
    (cookie : Option String) (fresh iph uah : String) (free : Int) :
    (gate_login st uid cookie fresh iph uah free).1.require_login = true ↔
      (truthyNat uid = false ∧
        has_any_credit (gate_login st uid cookie fresh iph uah free).2 uid
          (some (resolved_sid cookie fresh)) = false) := by
  unfold gate_login ensure_session_created resolved_sid
  by_cases hck : truthyStr cookie = true
  · simp only [hck, if_true]
    by_cases hcred : has_any_credit
        (ensure_session_persisted st (cookie.getD "") iph uah free) uid
        (some (cookie.getD "")) = true
    · simp [hcred]
    · rw [Bool.not_eq_true] at hcred
      by_cases huid : truthyNat uid = true
      · simp [hcred, huid]
      · rw [Bool.not_eq_true] at huid
        simp [hcred, huid]
  · rw [Bool.not_eq_true] at hck
    simp only [hck, Bool.false_eq_true, if_false]
    by_cases hcred : has_any_credit
        (ensure_session_persisted (get_or_create_session st fresh iph uah free).2 fresh iph uah free)
        uid (some fresh) = true
    · simp [hcred]
    · rw [Bool.not_eq_true] at hcred
      by_cases huid : truthyNat uid = true
      · simp [hcred, huid]
      · rw [Bool.not_eq_true] at huid
        simp [hcred, huid]

/-- An id-keyed status update keeps a row with the targeted id in the
table. -/
theorem mem_id_after_set (st : DBState) (pid : Nat) (s : String)
    (h : ∃ q ∈ st.purchases, q.id = pid) :
    ∃ q ∈ (set_purchase_status st pid s).purchases, q.id = pid := by
  obtain ⟨q, hq, hid⟩ := h
  refine ⟨if q.id = pid then { q with status := s } else q, List.mem_map_of_mem _ hq, ?_⟩
  by_cases h2 : q.id = pid <;> simp [h2, hid]

/-- The pending purchase used by the replay/atomicity witnesses. -/
def pendRow : PurchaseRow :=
  { id := 1, user_id := 42, package := 10, amount := 2990,
    status := "pending", provider_ref := "R" }

/-- A store with user 42 (balance 5) and the single pending purchase
`pendRow`. -/
def pendSt : DBState :=
  { users := fun i => if i = 42 then some 5 else none,
    sessions := fun _ => none, purchases := [pendRow] }

/-- The webhook body `{"reference_id": "R", "status": "PAID"}`. -/
def paidPayload : WebhookPayload :=
  { reference_id := some "R", status := some "PAID" }

/-- C2: delivering the same paid-status payload twice against a `pending`
Purchase credits the owning user exactly `package` once and leaves the
Purchase `paid`; the second delivery answers idempotent success and changes
nothing at all. (The purchase's package is nonzero, as all packages of the
closed price list are — the handler would substitute 10 for a literal 0.) -/
theorem webhook_replay_exactly_once (hmacHex : List Nat → List Nat → String)
    (secret : List Nat) (header_sig : String) (raw : List Nat)
    (payload : WebhookPayload) (st : DBState) (p : PurchaseRow)
    (hver : verify_pagbank_signature hmacHex secret header_sig raw = true)
    (href : extract_provider_ref payload ≠ "")
    (hfound : find_purchase st (extract_provider_ref payload) = some p)
    (hpending : p.status = "pending")
    (hpkg : p.package ≠ 0)
    (hps : is_paid_status (extract_status payload) = true) :
    (webhook_pagbank hmacHex secret header_sig raw payload true st).1 = .credited p.package ∧
    (webhook_pagbank hmacHex secret header_sig raw payload true st).2.users p.user_id
      = (st.users p.user_id).map (· + p.package) ∧
    purchase_status_by_id (webhook_pagbank hmacHex secret header_sig raw payload true st).2 p.id
      = some "paid" ∧
    webhook_pagbank hmacHex secret header_sig raw payload true
        (webhook_pagbank hmacHex secret header_sig raw payload true st).2
      = (.idempotent, (webhook_pagbank hmacHex secret header_sig raw payload true st).2) := by
  have hkey := webhook_found_eq hmacHex secret header_sig raw payload true st p hver href hfound
  have hnotpaid : pyLower p.status ≠ "paid" := by rw [hpending]; decide
  have hpkgif : (if p.package = 0 then 10 else p.package) = p.package := if_neg hpkg
  have hrun1 : webhook_pagbank hmacHex secret header_sig raw payload true st =
      (.credited p.package,
        add_credits_to_user (set_purchase_status st p.id "paid") p.user_id p.package) := by
    rw [hkey, if_pos hps, if_neg hnotpaid, if_pos rfl, hpkgif]
  refine ⟨by rw [hrun1], ?_, ?_, ?_⟩
  · rw [hrun1]
    simp [add_credits_to_user, set_purchase_status]
  · rw [hrun1]
    exact status_by_id_after_set st p.id "paid" ⟨p, List.mem_of_find?_eq_some hfound, rfl⟩
  · rw [hrun1]
    have hfound2 : find_purchase
        (add_credits_to_user (set_purchase_status st p.id "paid") p.user_id p.package)
        (extract_provider_ref payload) = some { p with status := "paid" } := by
      have h2 := find_ref_after_set st.purchases (extract_provider_ref payload) p p.id "paid" hfound
      rw [if_pos rfl] at h2
      exact h2
    have hkey2 := webhook_found_eq hmacHex secret header_sig raw payload true
      (add_credits_to_user (set_purchase_status st p.id "paid") p.user_id p.package)
      { p with status := "paid" } hver href hfound2
    rw [hkey2, if_pos hps, if_pos (by decide : pyLower "paid" = "paid")]

/-- Witness for C2: the concrete pending purchase is credited once and the
replay is a no-op idempotent success. -/
theorem webhook_replay_exactly_once_witness :
    (webhook_pagbank dummyHmac [] "" [] paidPayload true pendSt).1 = .credited 10 ∧
    (webhook_pagbank dummyHmac [] "" [] paidPayload true pendSt).2.users 42 = some 15 ∧
    webhook_pagbank dummyHmac [] "" [] paidPayload true
        (webhook_pagbank dummyHmac [] "" [] paidPayload true pendSt).2
      = (.idempotent, (webhook_pagbank dummyHmac [] "" [] paidPayload true pendSt).2) := by
  have h := webhook_replay_exactly_once dummyHmac [] "" [] paidPayload pendSt pendRow
    (by decide) (by decide) (by decide) (by decide) (by decide) (by decide)
  exact ⟨h.1, by simpa [pendRow, pendSt] using h.2.1, h.2.2.2⟩

/-- C4: on a paid-status delivery against a not-yet-`paid` Purchase, the
status flip and the grant behave as a unit: when the grant succeeds the
Purchase ends `paid` and the user's balance has grown by the package; when
the grant raises, the handler answers the 500 `credit_failed` error, the
Purchase is back at `pending`, and no balance changed. -/
theorem webhook_paid_atomicity (hmacHex : List Nat → List Nat → String)
    (secret : List Nat) (header_sig : String) (raw : List Nat)
    (payload : WebhookPayload) (grant_ok : Bool) (st : DBState) (p : PurchaseRow)
    (hver : verify_pagbank_signature hmacHex secret header_sig raw = true)
    (href : extract_provider_ref payload ≠ "")
    (hfound : find_purchase st (extract_provider_ref payload) = some p)
    (hnotpaid : pyLower p.status ≠ "paid")
    (hps : is_paid_status (extract_status payload) = true) :
    (grant_ok = true →
      (webhook_pagbank hmacHex secret header_sig raw payload grant_ok st).1
        = .credited (if p.package = 0 then 10 else p.package) ∧
      purchase_status_by_id
        (webhook_pagbank hmacHex secret header_sig raw payload grant_ok st).2 p.id
        = some "paid" ∧
      (webhook_pagbank hmacHex secret header_sig raw payload grant_ok st).2.users p.user_id
        = (st.users p.user_id).map (· + (if p.package = 0 then 10 else p.package))) ∧
    (grant_ok = false →
      (webhook_pagbank hmacHex secret header_sig raw payload grant_ok st).1 = .creditFailed ∧
      purchase_status_by_id
        (webhook_pagbank hmacHex secret header_sig raw payload grant_ok st).2 p.id
        = some "pending" ∧
      ∀ u, (webhook_pagbank hmacHex secret header_sig raw payload grant_ok st).2.users u
        = st.users u) := by
  have hkey := webhook_found_eq hmacHex secret header_sig raw payload grant_ok st p
    hver href hfound
  have hmem : ∃ q ∈ st.purchases, q.id = p.id :=
    ⟨p, List.mem_of_find?_eq_some hfound, rfl⟩
  constructor
  · rintro rfl
    rw [hkey, if_pos hps, if_neg hnotpaid, if_pos rfl]
    refine ⟨rfl, ?_, ?_⟩
    · exact status_by_id_after_set st p.id "paid" hmem
    · simp [add_credits_to_user, set_purchase_status]
  · rintro rfl
    rw [hkey, if_pos hps, if_neg hnotpaid, if_neg (by simp)]
    refine ⟨rfl, ?_, fun u => rfl⟩
    exact status_by_id_after_set (set_purchase_status st p.id "paid") p.id "pending"
      (mem_id_after_set st p.id "paid" hmem)

/-- Witness for C4: when the grant fails on the concrete pending purchase,
the handler reports `credit_failed`, the purchase is `pending` again, and
user 42 still holds 5 credits. -/
theorem webhook_paid_atomicity_witness :
    (webhook_pagbank dummyHmac [] "" [] paidPayload false pendSt).1 = .creditFailed ∧
    purchase_status_by_id (webhook_pagbank dummyHmac [] "" [] paidPayload false pendSt).2 1
      = some "pending" ∧
    (webhook_pagbank dummyHmac [] "" [] paidPayload false pendSt).2.users 42 = some 5 := by
  have h := (webhook_paid_atomicity dummyHmac [] "" [] paidPayload false pendSt pendRow
    (by decide) (by decide) (by decide) (by decide) (by decide)).2 rfl
  exact ⟨h.1, h.2.1, by rw [h.2.2 42]; decide⟩

/-! ### Balance nonnegativity (C3) -/

/-- Both balance columns are nonnegative everywhere. -/
def BalancesNonneg (st : DBState) : Prop :=
  (∀ u c, st.users u = some c → 0 ≤ c) ∧
  (∀ s r, st.sessions s = some r → 0 ≤ r.credits_temp_remaining)

/-- Every purchase row carries a positive package (the closed price list is
`{10, 20, 50}`). -/
def PackagesPos (st : DBState) : Prop := ∀ p ∈ st.purchases, 0 < p.package

/-- One application of an operation of the claim's set: `consume`, `grant`
with positive amount, `ensure_session` with a nonnegative free-credit grant,
or the webhook handler (with any payload, signature material and grant
outcome). -/
inductive LedgerStep : DBState → DBState → Prop where
  /-- A `consume_credit` call with any pair of identities. -/
  | consume : ∀ (st : DBState) (uid : Option Nat) (sid : Option String),
      LedgerStep st (consume_credit st uid sid).2
  /-- A grant of a positive amount. -/
  | grant : ∀ (st : DBState) (uid : Nat) (amount : Int), 0 < amount →
      LedgerStep st (increment_user_credits st uid amount)
  /-- A get-or-create with a nonnegative starting balance. -/
  | ensure : ∀ (st : DBState) (sid iph uah : String) (free : Int), 0 ≤ free →
      LedgerStep st (get_or_create_session st sid iph uah free).2
  /-- Any webhook delivery. -/
  | webhook : ∀ (st : DBState) (hmacHex : List Nat → List Nat → String)
      (secret : List Nat) (header_sig : String) (raw : List Nat)
      (payload : WebhookPayload) (grant_ok : Bool),
      LedgerStep st (webhook_pagbank hmacHex secret header_sig raw payload grant_ok st).2

/-- The guarded user-side decrement keeps balances nonnegative. -/
theorem consume_user_keeps (st : DBState) (u : Nat)
    (h : BalancesNonneg st ∧ PackagesPos st) :
    BalancesNonneg (consume_user_credit_atomic st u).2 ∧
      PackagesPos (consume_user_credit_atomic st u).2 := by
  unfold consume_user_credit_atomic
  cases hc : st.users u with
  | none => exact h
  | some c =>
      dsimp only
      split
      · exact h
      · dsimp only
        refine ⟨⟨?_, h.1.2⟩, h.2⟩
        intro i ci hi
        dsimp only at hi
        by_cases hiu : i = u
        · subst hiu
          rw [if_pos rfl] at hi
          injection hi with hci
          omega
        · rw [if_neg hiu] at hi
          exact h.1.1 i ci hi

/-- The guarded session-side decrement keeps balances nonnegative. -/
theorem consume_session_keeps (st : DBState) (s : String)
    (h : BalancesNonneg st ∧ PackagesPos st) :
    BalancesNonneg (consume_session_credit_atomic st s).2 ∧
      PackagesPos (consume_session_credit_atomic st s).2 := by
  unfold consume_session_credit_atomic
  cases hc : st.sessions s with
  | none => exact h
  | some r =>
      dsimp only
      split
      · exact h
      · dsimp only
        refine ⟨⟨h.1.1, ?_⟩, h.2⟩
        intro t rt ht
        dsimp only at ht
        by_cases hts : t = s
        · subst hts
          rw [if_pos rfl] at ht
          injection ht with hrt
          subst hrt
          simp only
          omega
        · rw [if_neg hts] at ht
          exact h.1.2 t rt ht

/-- Adding a nonnegative amount to a user keeps balances nonnegative (shared
shape of `increment_user_credits` and `add_credits_to_user`). -/
theorem add_nonneg_keeps (users0 : Nat → Option Int) (uid : Nat) (amount : Int)
    (hamt : 0 ≤ amount) (h : ∀ u c, users0 u = some c → 0 ≤ c) :
    ∀ u c, (if u = uid then (users0 u).map (· + amount) else users0 u) = some c → 0 ≤ c := by
  intro u c hu
  by_cases huu : u = uid
  · rw [if_pos huu] at hu
    cases hc : users0 u with
    | none => rw [hc] at hu; cases hu
    | some c0 =>
        rw [hc] at hu
        simp only [Option.map_some', Option.some.injEq] at hu
        have := h u c0 hc
        omega
  · rw [if_neg huu] at hu
    exact h u c hu

/-- Status updates of purchase rows change no balance and no package. -/
theorem set_status_keeps (st : DBState) (pid : Nat) (s : String)
    (h : BalancesNonneg st ∧ PackagesPos st) :
    BalancesNonneg (set_purchase_status st pid s) ∧
      PackagesPos (set_purchase_status st pid s) := by
  refine ⟨h.1, ?_⟩
  intro q hq
  obtain ⟨q0, hq0, rfl⟩ := List.mem_map.mp hq
  have := h.2 q0 hq0
  by_cases h2 : q0.id = pid <;> simp [h2, this]

/-- One step of any listed operation preserves the invariant. -/
theorem ledger_step_keeps (st st2 : DBState) (hstep : LedgerStep st st2)
    (h : BalancesNonneg st ∧ PackagesPos st) :
    BalancesNonneg st2 ∧ PackagesPos st2 := by
  cases hstep with
  | consume uid sid =>
      have huser := consume_user_keeps st (uid.getD 0) h
      unfold consume_credit
      dsimp only
      by_cases h1 : truthyNat uid = true
      · rw [if_pos h1]
        by_cases h2 : (consume_user_credit_atomic st (uid.getD 0)).1 = true
        · rw [if_pos h2]
          exact huser
        · rw [if_neg h2]
          split
          · exact consume_session_keeps _ (sid.getD "") huser
          · exact huser
      · rw [if_neg h1]
        dsimp only
        rw [if_neg (by simp : ¬(false = true))]
        split
        · exact consume_session_keeps st (sid.getD "") h
        · exact h
  | grant uid amount hamt =>
      exact ⟨⟨add_nonneg_keeps st.users uid amount (le_of_lt hamt) h.1.1, h.1.2⟩, h.2⟩
  | ensure sid iph uah free hfree =>
      unfold get_or_create_session
      cases hc : st.sessions sid with
      | some r => exact h
      | none =>
          dsimp only
          refine ⟨⟨h.1.1, ?_⟩, h.2⟩
          intro t rt ht
          dsimp only at ht
          by_cases hts : t = sid
          · subst hts
            rw [if_pos rfl] at ht
            injection ht with hrt
            subst hrt
            exact hfree
          · rw [if_neg hts] at ht
            exact h.1.2 t rt ht
  | webhook hmacHex secret header_sig raw payload grant_ok =>
      unfold webhook_pagbank
      split
      · exact h
      · dsimp only
        split
        · exact h
        · split
          · exact h
          · rename_i row heq
            split
            · split
              · exact h
              · have hrow : 0 < row.package := h.2 row (List.mem_of_find?_eq_some heq)
                have hamt : (0 : Int) ≤ if row.package = 0 then 10 else row.package := by
                  split <;> omega
                split
                · have hset := set_status_keeps st row.id "paid" h
                  exact ⟨⟨add_nonneg_keeps _ row.user_id _ hamt hset.1.1, hset.1.2⟩, hset.2⟩
                · exact set_status_keeps _ row.id "pending" (set_status_keeps st row.id "paid" h)
            · split
              · split
                · exact set_status_keeps st row.id "pending" h
                · exact h
              · split
                · exact set_status_keeps st row.id _ h
                · exact h

/-- C3: from any store whose balances are nonnegative and whose purchases
all carry positive packages, every store reachable through `consume`,
positive `grant`, `ensure_session` (nonnegative free credits) and webhook
deliveries again has every `credits_remaining` and every
`credits_temp_remaining` nonnegative: consumption is guarded on positivity,
so no operation drives a balance negative. -/
theorem ledger_balances_nonneg (st st' : DBState)
    (hb : BalancesNonneg st) (hp : PackagesPos st)
    (hreach : Relation.ReflTransGen LedgerStep st st') :
    BalancesNonneg st' := by
  suffices h : BalancesNonneg st' ∧ PackagesPos st' from h.1
  induction hreach with
  | refl => exact ⟨hb, hp⟩
  | tail hab hstep ih => exact ledger_step_keeps _ _ hstep ih

/-- Witness for C3: one consume step from the user-1/session-`"s"` store
keeps balances nonnegative. -/
theorem ledger_balances_nonneg_witness :
    BalancesNonneg (consume_credit oneFiveSt (some 1) (some "s")).2 :=
  ledger_balances_nonneg oneFiveSt (consume_credit oneFiveSt (some 1) (some "s")).2
    ⟨fun u c h => by
        by_cases hu : u = 1
        · simp [oneFiveSt, hu] at h
          omega
        · simp [oneFiveSt, hu] at h,
      fun s r h => by
        by_cases hs : s = "s"
        · simp [oneFiveSt, hs] at h
          simp [← h]
        · simp [oneFiveSt, hs] at h⟩
    (fun p hp => by simp [oneFiveSt] at hp)
    (Relation.ReflTransGen.single (LedgerStep.consume oneFiveSt (some 1) (some "s")))

end Influesafe
